import Mathlib

/-
Shallow embedding of shreyanshquash/better-quash (src/app/{main,generator,
parser,rag_setup}.py).

External effects (LlamaParse, LangExtract, index embedding, the Gemini LLM
calls) are modelled as oracles in an `Env` record, each returning
`Except String _` (a Python exception is `.error msg`).  The module-global
index cache `_qa_index` of rag_setup.py is an explicit state value of type
`Option Nat` threaded through the functions, and observable side effects
(index construction, retrieval queries, LLM calls, temp-file removal) are
recorded in an event log.
-/

/-- JSON values, enough for the payloads this service produces. -/
inductive Json where
  | null
  | str (s : String)
  | num (n : Int)
  | arr (xs : List Json)
  | obj (fields : List (String × Json))

/-- Observable side effects of one request. -/
inductive Event where
  | buildIndexEv
  | queryEv (q : String)
  | multimodalCallEv (prompt : String)
  | removeTmpEv
deriving BEq, DecidableEq

/-- The value parser.py stores under `extracted_entities`: `extraction_to_dict`
returns either a Python dict (modelled as an association list whose values are
string lists, which is what generator.py reads from it) or a plain string. -/
inductive EntVal where
  | dict (d : List (String × List String))
  | str (s : String)

/-- The context dict produced by `parse_pdf_with_images_async` and consumed by
the generator functions.  A missing `text_content` key is the empty string
(main.py always passes the parser result, and generator.py uses
`context.get("text_content", "")`); `image_content` is never set by the parser,
so `context.get("image_content") or []` yields `[]`. -/
structure Context where
  text_content : String
  image_content : List String
  extracted_entities : Option EntVal

/-- Oracles for every external call the request path makes. -/
structure Env where
  /-- `LlamaParse.aload_data`: the list of document contents, or an exception. -/
  llamaParse : Except String (List String)
  /-- `lx.extract` followed by `extraction_to_dict` (parser.py lines 160-186). -/
  langExtract : Except String EntVal
  /-- `create_qa_knowledge_base` (rag_setup.py lines 25-129): embeds the corpus,
  builds and persists the index.  The index instance is an abstract id. -/
  buildIndex : Except String Nat
  /-- `Gemini(...)` + `qa_index.as_query_engine(...)` (generator.py lines 60-65). -/
  mkQueryEngine : Except String Unit
  /-- `query_engine.query(rag_query)` (generator.py line 103). -/
  query : String → Except String String
  /-- The schema-constrained `generate_content` + `json.loads` of the
  multimodal path (generator.py lines 274-283). -/
  multimodalLLM : String → Except String Json

/-- Result of a stateful step: outcome, cache state after it, event log. -/
structure RunOut (α : Type) where
  res : Except String α
  st : Option Nat
  log : List Event

/-- Result of a stateless step: outcome and event log. -/
structure MOut where
  res : Except String Json
  log : List Event

/-- rag_setup.reset_qa_index: sets the global `_qa_index` back to `None`. -/
def reset_qa_index (_s : Option Nat) : Option Nat := none

/-- rag_setup.get_qa_index: returns the cached index, building (and caching)
it only when the cache is `None`.  A construction attempt is logged even when
it fails; a failed build leaves the cache empty. -/
def get_qa_index (env : Env) (s : Option Nat) : RunOut Nat :=
  match s with
  | some idx => ⟨.ok idx, some idx, []⟩
  | none =>
    match env.buildIndex with
    | .ok idx => ⟨.ok idx, some idx, [.buildIndexEv]⟩
    | .error e => ⟨.error e, none, [.buildIndexEv]⟩

/-- Python dict `.get(k, [])` on the entity dict. -/
def dictGet (d : List (String × List String)) (k : String) : List String :=
  match d.find? (fun p => p.1 == k) with
  | some p => p.2
  | none => []

/-- The entity-specific RAG query (generator.py lines 80-84). -/
def entityQuery (features requirements roles : List String) : String :=
  "Provide expert testing strategies, potential pitfalls, and security considerations for an application with these features: ["
    ++ String.intercalate ", " features
    ++ "]. It must meet these requirements: ["
    ++ String.intercalate ", " requirements
    ++ "]. Consider the following user roles: ["
    ++ String.intercalate ", " roles
    ++ "]."

/-- The generic RAG query of the `else` branch (generator.py lines 90-97),
built from the first 500 characters of the raw text. -/
def genericQuery (text_content : String) : String :=
  "Based on this PRD content, provide specific testing patterns, test case examples, and quality standards for:\n1. Functional testing approaches\n2. Security testing considerations  \n3. Performance testing scenarios\n4. User interface testing patterns\n5. Integration testing strategies\n\nPRD Content: "
    ++ text_content.take 500 ++ "..."

/-- `if extracted_entities:` — Python truthiness of the stored value:
`None` and the empty dict and the empty string are falsy. -/
def entTruthy : Option EntVal → Bool
  | none => false
  | some (.dict d) => !d.isEmpty
  | some (.str s) => !(s == "")

/-- The query-building step of `generate_testcases_with_rag` (generator.py
lines 76-98).  When the stored entity value is a non-empty plain string (the
`extraction_to_dict` fallback), `.get` raises `AttributeError`. -/
def buildRagQuery (ctx : Context) : Except String String :=
  match ctx.extracted_entities with
  | some (.dict d) =>
    if d.isEmpty then .ok (genericQuery ctx.text_content)
    else
      .ok (entityQuery (dictGet d "main_features")
        (dictGet d "key_requirements") (dictGet d "user_roles"))
  | some (.str s) =>
    if s == "" then .ok (genericQuery ctx.text_content)
    else .error "AttributeError: str object has no attribute get"
  | none => .ok (genericQuery ctx.text_content)

/-- `text_content.strip() == ""` (generator.py line 71): the string has no
non-whitespace character. -/
def isBlank (s : String) : Bool := s.toList.all (fun c => c.isWhitespace)

/-- The prompt of `generate_testcases_multimodal` (generator.py lines 240-272). -/
def multimodalPrompt (ctx : Context) : String :=
  let full_context :=
    if ctx.image_content.isEmpty then ctx.text_content
    else ctx.text_content ++ "\n\nVISUAL CONTENT:\n"
      ++ String.intercalate "\n" ctx.image_content
  "You are an expert QA engineer. Generate exactly 10 test cases for this PRD using the text and visuals.\nReturn JSON only, matching the schema. Do not include extra fields.\n\n\n**QUALITY STANDARDS:**\n- Each test case must be independently executable\n- Steps must be specific and unambiguous\n- Include edge cases and negative scenarios\n- Cover security, performance, and accessibility\n- Focus on real user workflows\n- Every test case should start with \"Open [Application]...\" when applicable\n\nPRD (TEXT + VISUALS):\n"
    ++ full_context
    ++ "\n**QA BEST PRACTICES TO FOLLOW:**\n- Test both positive and negative paths\n- Include boundary value testing\n- Test error handling and edge cases\n- Consider security implications\n- Test accessibility features\n- Include performance considerations\n- Test integration points\n- Validate data persistence\n"

/-- generator.generate_testcases_multimodal: one schema-constrained LLM call
on document text plus OCR text; no retrieval, no entities. -/
def generate_testcases_multimodal (env : Env) (ctx : Context) : MOut :=
  ⟨env.multimodalLLM (multimodalPrompt ctx),
   [.multimodalCallEv (multimodalPrompt ctx)]⟩

/-- The `NameError` raised while assembling `enhanced_prompt`: generator.py
line 122 interpolates `full_context`, but its assignment only exists inside
the comment on line 106, so the name is unbound in the function and module. -/
def nameErrorMsg : String := "NameError: name full_context is not defined"

/-- The `try:` block of `generate_testcases_with_rag` (generator.py lines
57-158): index access and query-engine construction first, then the
empty-text early return, query building, the retrieval query, and prompt
assembly (which raises `NameError`, so the enhanced LLM call is unreachable). -/
def rag_try_block (env : Env) (s : Option Nat) (ctx : Context) : RunOut Json :=
  let g := get_qa_index env s
  match g.res with
  | .error e => ⟨.error e, g.st, g.log⟩
  | .ok _ =>
    match env.mkQueryEngine with
    | .error e => ⟨.error e, g.st, g.log⟩
    | .ok _ =>
      if ctx.text_content == "" || isBlank ctx.text_content then
        let m := generate_testcases_multimodal env ctx
        ⟨m.res, g.st, g.log ++ m.log⟩
      else
        match buildRagQuery ctx with
        | .error e => ⟨.error e, g.st, g.log⟩
        | .ok q =>
          match env.query q with
          | .error e => ⟨.error e, g.st, g.log ++ [.queryEv q]⟩
          | .ok _ => ⟨.error nameErrorMsg, g.st, g.log ++ [.queryEv q]⟩

/-- generator.generate_testcases_with_rag: the `try:` block above, with any
exception caught (generator.py lines 160-164) and answered by one call to
`generate_testcases_multimodal`, whose own exception would propagate. -/
def generate_testcases_with_rag (env : Env) (s : Option Nat) (ctx : Context) :
    RunOut Json :=
  let t := rag_try_block env s ctx
  match t.res with
  | .ok j => ⟨.ok j, t.st, t.log⟩
  | .error _ =>
    let m := generate_testcases_multimodal env ctx
    ⟨m.res, t.st, t.log ++ m.log⟩

/-- The parser's error placeholder text (parser.py line 153). -/
def failText (e : String) : String := "Failed to parse document. Error: " ++ e

/-- parser.parse_pdf_with_images_async: both the LlamaParse step and the
LangExtract step catch their exceptions and return a context dict, so the
function never raises (it is total here). -/
def parse_pdf_with_images_async (env : Env) : Context :=
  match env.llamaParse with
  | .error e => ⟨failText e, [], none⟩
  | .ok docs =>
    if docs.isEmpty then
      ⟨failText "LlamaParse returned no content.", [], none⟩
    else
      let full_text := String.join docs
      match env.langExtract with
      | .error _ => ⟨full_text, [], none⟩
      | .ok v => ⟨full_text, [], some v⟩

/-- main.upload_and_generate: parse the uploaded file, generate test cases,
wrap the generator result as `{"testcases": result}` (main.py line 42), and
remove the temp file in the `finally:` block on both outcomes. -/
def upload_and_generate (env : Env) (s : Option Nat) : RunOut Json :=
  let ctx := parse_pdf_with_images_async env
  let r := generate_testcases_with_rag env s ctx
  match r.res with
  | .ok j => ⟨.ok (Json.obj [("testcases", j)]), r.st, r.log ++ [.removeTmpEv]⟩
  | .error e => ⟨.error e, r.st, r.log ++ [.removeTmpEv]⟩

/-- Field lookup in a JSON object. -/
def jlookup (j : Json) (k : String) : Option Json :=
  match j with
  | .obj fs =>
    match fs.find? (fun p => p.1 == k) with
    | some p => some p.2
    | none => none
  | _ => none

/-- Is this JSON value a (non-null) string? -/
def isStrJson : Json → Bool
  | .str _ => true
  | _ => false

/-- Is this JSON value an array of strings (the `steps` field)? -/
def isStrArrJson : Json → Bool
  | .arr xs => xs.all isStrJson
  | _ => false

/-- One test-case object as required by SCHEMA (generator.py lines 23-36):
all five fields present with their declared (non-null) types. -/
def testcaseOK (j : Json) : Bool :=
  match jlookup j "id", jlookup j "title", jlookup j "preconditions",
      jlookup j "steps", jlookup j "expected_result" with
  | some i, some t, some p, some st, some er =>
    isStrJson i && isStrJson t && isStrJson p && isStrArrJson st && isStrJson er
  | _, _, _, _, _ => false

/-- Conformance to SCHEMA (generator.py lines 14-40): an object whose
`testcases` field is an array of exactly ten well-formed test-case objects. -/
def conformsToSCHEMA (j : Json) : Bool :=
  match jlookup j "testcases" with
  | some (.arr xs) => xs.length == 10 && xs.all testcaseOK
  | _ => false

/-
Concrete fixtures: a well-formed ten-test-case generator payload and oracle
environments used as witnesses and counterexamples.
-/

/-- One well-formed test-case object. -/
def tcObj : Json :=
  Json.obj [("id", Json.str "TC001"), ("title", Json.str "t"),
    ("preconditions", Json.str "p"), ("steps", Json.arr [Json.str "s1"]),
    ("expected_result", Json.str "r")]

/-- A generator result honoring SCHEMA: ten well-formed test cases under the
`testcases` key, exactly what the schema-constrained LLM call returns. -/
def tc10 : Json := Json.obj [("testcases", Json.arr (List.replicate 10 tcObj))]

/-- A benign environment: parsing yields the text `PRD`, entity extraction
fails (so entities are absent), every other external call succeeds, and the
multimodal LLM returns the SCHEMA-conforming payload `tc10`. -/
def envC : Env :=
  { llamaParse := .ok ["PRD"]
    langExtract := .error "x"
    buildIndex := .ok 0
    mkQueryEngine := .ok ()
    query := fun _ => .ok "knowledge"
    multimodalLLM := fun _ => .ok tc10 }

/-- Like `envC` but PDF parsing raises. -/
def envP : Env := { envC with llamaParse := .error "boom" }

/-- The context `envC`'s parser output produces. -/
def ctxPRD : Context := ⟨"PRD", [], none⟩

/-- A context with empty text content. -/
def ctxEmpty : Context := ⟨"", [], none⟩

/-
Helper lemmas shared by the claim theorems.
-/

/-- If the `try:` block of the RAG path succeeds, its value came from the
multimodal LLM call (the empty-text early return); the enhanced call is
unreachable because prompt assembly raises `NameError`. -/
theorem rag_try_block_ok_src (env : Env) (s : Option Nat) (ctx : Context)
    (j : Json) (h : (rag_try_block env s ctx).res = .ok j) :
    env.multimodalLLM (multimodalPrompt ctx) = .ok j := by
  simp only [rag_try_block] at h
  cases hg : (get_qa_index env s).res with
  | error e => simp [hg] at h
  | ok idx =>
    simp only [hg] at h
    cases hq : env.mkQueryEngine with
    | error e => simp [hq] at h
    | ok u =>
      simp only [hq] at h
      cases hb : (ctx.text_content == "" || isBlank ctx.text_content) with
      | true =>
        simp only [hb, if_true, generate_testcases_multimodal] at h
        exact h
      | false =>
        simp only [hb, Bool.false_eq_true, if_false] at h
        cases hr : buildRagQuery ctx with
        | error e => simp [hr] at h
        | ok q =>
          simp only [hr] at h
          cases hv : env.query q with
          | error e => simp [hv] at h
          | ok k => simp [hv] at h

/-- Any successful result of `generate_testcases_with_rag` is a value the
multimodal LLM call returned. -/
theorem with_rag_ok_src (env : Env) (s : Option Nat) (ctx : Context)
    (j : Json) (h : (generate_testcases_with_rag env s ctx).res = .ok j) :
    env.multimodalLLM (multimodalPrompt ctx) = .ok j := by
  simp only [generate_testcases_with_rag] at h
  cases ht : (rag_try_block env s ctx).res with
  | ok j2 =>
    simp only [ht] at h
    injection h with h2
    subst h2
    exact rag_try_block_ok_src env s ctx j2 ht
  | error e =>
    simp only [ht, generate_testcases_multimodal] at h
    exact h

/-- C1, counterexample: a run in which every external call succeeds and the
schema-constrained LLM call returns the well-formed ten-test-case payload
`tc10`, yet the response body does not have a `testcases` array of ten
objects: main.py line 42 wraps the generator result (already of the form
`{"testcases": [...]}`) in another `{"testcases": ...}`, so the body's
`testcases` field is an object, and the body itself fails the SCHEMA shape
the claim asserts. -/
theorem C1_counterexample :
    (upload_and_generate envC none).res = .ok (Json.obj [("testcases", tc10)]) ∧
    conformsToSCHEMA (Json.obj [("testcases", tc10)]) = false ∧
    conformsToSCHEMA tc10 = true :=
  ⟨rfl, rfl, rfl⟩

/-- Claim C1 (amended): for every upload run that completes successfully,
assuming the schema-constrained LLM call only returns SCHEMA-conforming
payloads, the response body is a JSON object whose top-level `testcases` key
holds the generator result, which is itself an object containing a
`testcases` array of exactly ten objects with all five fields non-null
(the array sits one level deeper than the claim states). -/
theorem C1_theorem (env : Env) (s : Option Nat) (body : Json)
    (hm : ∀ p j, env.multimodalLLM p = .ok j → conformsToSCHEMA j = true)
    (h : (upload_and_generate env s).res = .ok body) :
    ∃ g, jlookup body "testcases" = some g ∧ conformsToSCHEMA g = true := by
  simp only [upload_and_generate] at h
  cases hr : (generate_testcases_with_rag env s (parse_pdf_with_images_async env)).res with
  | error e => simp [hr] at h
  | ok j =>
    simp only [hr] at h
    injection h with h2
    subst h2
    exact ⟨j, rfl, hm _ j (with_rag_ok_src env s _ j hr)⟩

/-- C1, witness: `C1_theorem` instantiated at the concrete run of
`C1_counterexample`. -/
theorem C1_witness :
    ∃ g, jlookup (Json.obj [("testcases", tc10)]) "testcases" = some g ∧
      conformsToSCHEMA g = true :=
  C1_theorem envC none (Json.obj [("testcases", tc10)])
    (fun p j h => by
      have h2 : (Except.ok tc10 : Except String Json) = Except.ok j := h
      injection h2 with h3
      subst h3
      rfl)
    rfl

/-- Claim C2: whenever the `try:` block of the RAG-enhanced path raises, the
function returns the result of the non-RAG multimodal path, and when that
fallback itself raises, the error propagates unchanged with no further
retry. -/
theorem C2_theorem (env : Env) (s : Option Nat) (ctx : Context) (e : String)
    (h : (rag_try_block env s ctx).res = .error e) :
    (generate_testcases_with_rag env s ctx).res
      = (generate_testcases_multimodal env ctx).res ∧
    (∀ e2, (generate_testcases_multimodal env ctx).res = .error e2 →
      (generate_testcases_with_rag env s ctx).res = .error e2) := by
  have h1 : (generate_testcases_with_rag env s ctx).res
      = (generate_testcases_multimodal env ctx).res := by
    simp only [generate_testcases_with_rag, h]
  exact ⟨h1, fun e2 he => h1.trans he⟩

/-- C2, witness: with a benign environment and the text `PRD`, the try block
raises (the `NameError` of prompt assembly) and the fallback result is
returned. -/
theorem C2_witness :
    (generate_testcases_with_rag envC none ctxPRD).res
      = (generate_testcases_multimodal envC ctxPRD).res ∧
    (∀ e2, (generate_testcases_multimodal envC ctxPRD).res = .error e2 →
      (generate_testcases_with_rag envC none ctxPRD).res = .error e2) :=
  C2_theorem envC none ctxPRD nameErrorMsg rfl

/-- Claim C3 (code bug): for every context that passes the non-empty-text
guard, the `try:` block of the RAG-enhanced path always raises — generator.py
line 122 reads `full_context`, whose assignment exists only inside the
comment on line 106 — so the enhanced prompt is never submitted to the LLM
and the function always answers with the non-RAG fallback result. -/
theorem C3_theorem (env : Env) (s : Option Nat) (ctx : Context)
    (h : (ctx.text_content == "" || isBlank ctx.text_content) = false) :
    (∃ e, (rag_try_block env s ctx).res = .error e) ∧
    (generate_testcases_with_rag env s ctx).res
      = (generate_testcases_multimodal env ctx).res := by
  have h1 : ∃ e, (rag_try_block env s ctx).res = .error e := by
    cases hg : (get_qa_index env s).res with
    | error e => exact ⟨e, by simp [rag_try_block, hg]⟩
    | ok idx =>
      cases hq : env.mkQueryEngine with
      | error e => exact ⟨e, by simp [rag_try_block, hg, hq]⟩
      | ok u =>
        cases hr : buildRagQuery ctx with
        | error e => exact ⟨e, by simp [rag_try_block, hg, hq, h, hr]⟩
        | ok q =>
          cases hv : env.query q with
          | error e => exact ⟨e, by simp [rag_try_block, hg, hq, h, hr, hv]⟩
          | ok k => exact ⟨nameErrorMsg, by simp [rag_try_block, hg, hq, h, hr, hv]⟩
  obtain ⟨e, he⟩ := h1
  exact ⟨⟨e, he⟩, by simp only [generate_testcases_with_rag, he]⟩

/-- C3, witness: `C3_theorem` at the benign environment and the text `PRD`. -/
theorem C3_witness :
    (∃ e, (rag_try_block envC none ctxPRD).res = .error e) ∧
    (generate_testcases_with_rag envC none ctxPRD).res
      = (generate_testcases_multimodal envC ctxPRD).res :=
  C3_theorem envC none ctxPRD rfl

/-- Claim C4: starting from an empty cache, two calls to `get_qa_index`
without an intervening reset return the same successfully built index, the
first call performs exactly one construction, and the second call performs
none. -/
theorem C4_theorem (env : Env) (idx : Nat) (h : env.buildIndex = .ok idx) :
    (get_qa_index env none).res = .ok idx ∧
    (get_qa_index env (get_qa_index env none).st).res = .ok idx ∧
    (get_qa_index env none).log = [.buildIndexEv] ∧
    (get_qa_index env (get_qa_index env none).st).log = [] := by
  simp [get_qa_index, h]

/-- C4, witness: `C4_theorem` at the benign environment, whose index builder
returns index `0`. -/
theorem C4_witness :
    (get_qa_index envC none).res = .ok 0 ∧
    (get_qa_index envC (get_qa_index envC none).st).res = .ok 0 ∧
    (get_qa_index envC none).log = [.buildIndexEv] ∧
    (get_qa_index envC (get_qa_index envC none).st).log = [] :=
  C4_theorem envC 0 rfl

/-- Claim C5: after `reset_qa_index`, the next `get_qa_index` call performs a
fresh index construction, regardless of the cache state before the reset
(and regardless of whether the construction succeeds). -/
theorem C5_theorem (env : Env) (s : Option Nat) :
    (get_qa_index env (reset_qa_index s)).log = [.buildIndexEv] := by
  cases h : env.buildIndex <;> simp [get_qa_index, reset_qa_index, h]

/-- Claim C6: whenever the stored entity value is falsy (`None`, empty dict,
or the empty string), the query builder produces the generic query template
over the first 500 characters of the raw document text. -/
theorem C6_theorem (ctx : Context)
    (h : entTruthy ctx.extracted_entities = false) :
    buildRagQuery ctx = .ok (genericQuery ctx.text_content) := by
  match hx : ctx.extracted_entities with
  | none => simp [buildRagQuery, hx]
  | some (.dict d) =>
    rw [hx] at h
    simp only [entTruthy, Bool.not_eq_false'] at h
    simp [buildRagQuery, hx, h]
  | some (.str s) =>
    rw [hx] at h
    simp only [entTruthy, Bool.not_eq_false'] at h
    simp [buildRagQuery, hx, h]

/-- C6, witness: `C6_theorem` at the entity-free context `ctxPRD`. -/
theorem C6_witness :
    buildRagQuery ctxPRD = .ok (genericQuery ctxPRD.text_content) :=
  C6_theorem ctxPRD rfl

/-- C7, counterexample: a run whose PDF parsing raises (`boom`), yet the
endpoint answers with a successful test-case response: parser.py lines
151-153 catch the exception and return a context whose text is the error
message, and generation proceeds on that text. -/
theorem C7_counterexample :
    envP.llamaParse = .error "boom" ∧
    (upload_and_generate envP none).res = .ok (Json.obj [("testcases", tc10)]) :=
  ⟨rfl, rfl⟩

/-- Claim C7 (amended): when PDF parsing fails, the parser raises nothing and
returns a context whose `text_content` is the placeholder error message with
no extracted entities; the endpoint then proceeds with generation on that
context, and whenever generation succeeds the client receives a successful
test-case response — the ingestion failure is not surfaced as a failed
request. -/
theorem C7_theorem (env : Env) (s : Option Nat) (e : String) (j : Json)
    (hp : env.llamaParse = .error e)
    (hg : (generate_testcases_with_rag env s ⟨failText e, [], none⟩).res = .ok j) :
    parse_pdf_with_images_async env = ⟨failText e, [], none⟩ ∧
    (upload_and_generate env s).res = .ok (Json.obj [("testcases", j)]) := by
  have hc : parse_pdf_with_images_async env = ⟨failText e, [], none⟩ := by
    simp [parse_pdf_with_images_async, hp]
  refine ⟨hc, ?_⟩
  simp only [upload_and_generate, hc, hg]

/-- C7, witness: `C7_theorem` at the failing-parse environment `envP`. -/
theorem C7_witness :
    parse_pdf_with_images_async envP = ⟨failText "boom", [], none⟩ ∧
    (upload_and_generate envP none).res = .ok (Json.obj [("testcases", tc10)]) :=
  C7_theorem envP none "boom" tc10 rfl rfl

/-- Claim C8: when PDF text extraction succeeds (non-empty document list) but
entity extraction raises, the parser returns the full joined text with
`extracted_entities = None` and raises nothing (the embedded parser is a
total function), so the query builder later uses the generic un-enriched
query for this context. -/
theorem C8_theorem (env : Env) (docs : List String) (e : String)
    (hp : env.llamaParse = .ok docs) (hne : docs.isEmpty = false)
    (hx : env.langExtract = .error e) :
    parse_pdf_with_images_async env = ⟨String.join docs, [], none⟩ ∧
    buildRagQuery (parse_pdf_with_images_async env)
      = .ok (genericQuery (String.join docs)) := by
  have hc : parse_pdf_with_images_async env = ⟨String.join docs, [], none⟩ := by
    simp [parse_pdf_with_images_async, hp, hne, hx]
  exact ⟨hc, by rw [hc]; simp [buildRagQuery]⟩

/-- C8, witness: `C8_theorem` at the benign environment, whose entity
extraction fails with `x`. -/
theorem C8_witness :
    parse_pdf_with_images_async envC = ⟨String.join ["PRD"], [], none⟩ ∧
    buildRagQuery (parse_pdf_with_images_async envC)
      = .ok (genericQuery (String.join ["PRD"])) :=
  C8_theorem envC ["PRD"] "x" rfl rfl rfl

/-- C9, counterexample: on an empty-text context with a cold cache, the RAG
path still constructs the retrieval index — generator.py calls
`get_qa_index()` (line 59) before the empty-text check (line 71) — refuting
`without accessing or constructing the retrieval index`. -/
theorem C9_counterexample :
    ctxEmpty.text_content = "" ∧
    (generate_testcases_with_rag envC none ctxEmpty).log.count
      Event.buildIndexEv = 1 ∧
    (generate_testcases_with_rag envC none ctxEmpty).res
      = (generate_testcases_multimodal envC ctxEmpty).res :=
  ⟨rfl, rfl, rfl⟩

/-- Claim C9 (amended): for every context whose text content is missing,
empty, or whitespace-only, `generate_testcases_with_rag` returns the result
of the non-RAG multimodal path and issues no retrieval query; however, the
index accessor and query-engine construction still run first, so the
retrieval index may be accessed and constructed. -/
theorem C9_theorem (env : Env) (s : Option Nat) (ctx : Context)
    (h : (ctx.text_content == "" || isBlank ctx.text_content) = true) :
    (generate_testcases_with_rag env s ctx).res
      = (generate_testcases_multimodal env ctx).res ∧
    ∀ q, Event.queryEv q ∉ (generate_testcases_with_rag env s ctx).log := by
  constructor
  · rcases s with _ | idx <;>
      rcases hb : env.buildIndex with e | i <;>
        rcases hq : env.mkQueryEngine with e2 | u <;>
          rcases hm : env.multimodalLLM (multimodalPrompt ctx) with e3 | j <;>
            simp [generate_testcases_with_rag, rag_try_block, get_qa_index,
              generate_testcases_multimodal, h, hb, hq, hm]
  · intro q
    rcases s with _ | idx <;>
      rcases hb : env.buildIndex with e | i <;>
        rcases hq : env.mkQueryEngine with e2 | u <;>
          rcases hm : env.multimodalLLM (multimodalPrompt ctx) with e3 | j <;>
            simp [generate_testcases_with_rag, rag_try_block, get_qa_index,
              generate_testcases_multimodal, h, hb, hq, hm]

/-- C9, witness: `C9_theorem` at the empty-text context. -/
theorem C9_witness :
    (generate_testcases_with_rag envC none ctxEmpty).res
      = (generate_testcases_multimodal envC ctxEmpty).res ∧
    ∀ q, Event.queryEv q ∉ (generate_testcases_with_rag envC none ctxEmpty).log :=
  C9_theorem envC none ctxEmpty rfl

/-- Claim C10: for every request, the very last side effect of the upload
handler is the temp-file removal of the `finally:` block, on the success
outcome and on the error outcome alike. -/
theorem C10_theorem (env : Env) (s : Option Nat) :
    ∃ l, (upload_and_generate env s).log = l ++ [Event.removeTmpEv] := by
  refine ⟨(generate_testcases_with_rag env s (parse_pdf_with_images_async env)).log, ?_⟩
  cases hr : (generate_testcases_with_rag env s (parse_pdf_with_images_async env)).res with
  | ok j => simp [upload_and_generate, hr]
  | error e => simp [upload_and_generate, hr]
